import Mathlib

/-!
Shallow embedding of the market-trend streaming client
(src/client/src/MarketTrendClient.tsx).

The React component keeps its observable state in `useState` hooks
(stocks, isConnected, error, filter, sortBy, lastUpdate, messageCount)
and two refs (abortControllerRef, clientRef).  The subscription
lifecycle is driven by `connectToStream`, `disconnect`, the debounced
restart effect on `[filter, sortBy]`, the per-message body of the
`for await` loop, and the catch/finally blocks that run when a
session's message sequence ends.  Each of those code paths is embedded
below as a pure transition on an explicit `ClientState`; asynchronous
happenings (a message arriving on a session's stream, a session's
loop terminating, the 100ms debounce timer firing) are events of a
small-step `step` function.

Numeric stock fields are modelled as integers (the claims only inspect
the sign of `change`); timestamps as naturals.
-/

/-- One instrument record, after `EStockInfo` of the generated protobuf
types (`code, name, price, change, percentChange, totalVolume, value,
totalFreq`). -/
structure EStockInfo where
  code : String
  name : String
  price : Int
  change : Int
  percentChange : Int
  totalVolume : Int
  value : Int
  totalFreq : Int
deriving DecidableEq, Repr

/-- The streaming request built in `connectToStream`:
`{ filter: filter, sort: sortBy }`. -/
structure FilterRequest where
  filter : String
  sort : String
deriving DecidableEq, Repr

/-- One received message (`DataStreamResponse`): a response code, an
optional payload (the code guards with `response.data?.length` and
truthiness of `response.data`, so the payload is modelled as an
`Option`), and a message string. -/
structure DataStreamResponse where
  code : Nat
  data : Option (List EStockInfo)
  message : String
deriving DecidableEq, Repr

/-- Completion status of one stream session
(`pending | completed | cancelled | errored`). -/
inductive SessionStatus where
  | pending
  | completed
  | cancelled
  | errored (cause : Option String)
deriving DecidableEq, Repr

/-- One in-flight invocation of `connectToStream`: the `AbortController`
created for it (modelled by the `aborted` flag), the request parameters
it captured, its completion status, and its local `count` variable. -/
structure Session where
  id : Nat
  params : FilterRequest
  status : SessionStatus
  aborted : Bool
  count : Nat
deriving DecidableEq, Repr

/-- How a session's `for await` loop can end: the stream completes
normally, the catch block sees an `AbortError`, or it sees some other
error whose `.message` may be absent. -/
inductive Outcome where
  | completed
  | abortError
  | streamError (msg : Option String)
deriving DecidableEq, Repr

/-- The component state: the `useState` hooks, the abort-controller ref
(`abortRef` holds the id of the session the ref currently points at),
the bookkeeping of all sessions opened so far, the pending debounce
timer of the restart effect, and whether `clientRef.current` is
non-null. -/
structure ClientState where
  stocks : List EStockInfo
  isConnected : Bool
  error : Option String
  filter : String
  sortBy : String
  lastUpdate : Option Nat
  messageCount : Nat
  abortRef : Option Nat
  sessions : List Session
  nextId : Nat
  timer : Option Unit
  clientReady : Bool
deriving DecidableEq, Repr

/-- The error message derivation of the catch block:
`err.message || 'An error occurred during streaming'` (an absent or
empty message falls back to the default, since `""` is falsy). -/
def humanMessage : Option String → String
  | some m => if m = "" then "An error occurred during streaming" else m
  | none => "An error occurred during streaming"

/-- `connectToStream`: if the client ref is null, set the
"not initialized" error and return; otherwise set `isConnected`,
clear `error`, `stocks` and `messageCount`, create a fresh
`AbortController`, capture the current filter/sort into the request,
and start the streaming call (a fresh pending session). -/
def connectToStream (s : ClientState) : ClientState :=
  if s.clientReady = false then
    { s with error := some "gRPC client not initialized" }
  else
    { s with
      isConnected := true
      error := none
      stocks := []
      messageCount := 0
      abortRef := some s.nextId
      sessions := s.sessions ++
        [{ id := s.nextId
           params := { filter := s.filter, sort := s.sortBy }
           status := SessionStatus.pending
           aborted := false
           count := 0 }]
      nextId := s.nextId + 1 }

/-- Requesting cancellation: the effect of `abort()` on the session the
abort controller with id `i` belongs to. -/
def abortSession (i : Nat) (tt : Session) : Session :=
  if tt.id == i then { tt with aborted := true } else tt

/-- `disconnect`: if `abortControllerRef.current` is non-null, call
`abort()` on it (flag the referenced session as aborted); otherwise do
nothing. -/
def disconnect (s : ClientState) : ClientState :=
  match s.abortRef with
  | none => s
  | some i => { s with sessions := s.sessions.map (abortSession i) }

/-- The body of the success branch for one received response:
`if (response.code === 200 && response.data) { setStocks(response.data);
setLastUpdate(new Date()); }` — otherwise only a console warning. -/
def applyResponse (r : DataStreamResponse) (now : Nat) (s : ClientState) :
    ClientState :=
  match r.data with
  | some d =>
    if r.code = 200 then { s with stocks := d, lastUpdate := some now }
    else s
  | none => s

/-- One iteration of session `sid`'s `for await` loop on response `r`:
only a pending, un-aborted session still receives messages; it
increments its local `count`, publishes it via `setMessageCount`, and
runs the success/anomaly branch. -/
def bumpCount (sid : Nat) (uu : Session) : Session :=
  if uu.id == sid then { uu with count := uu.count + 1 } else uu

def deliver (sid : Nat) (r : DataStreamResponse) (now : Nat)
    (s : ClientState) : ClientState :=
  match s.sessions.find? (fun tt => tt.id == sid) with
  | none => s
  | some tt =>
    if tt.status = SessionStatus.pending ∧ tt.aborted = false then
      applyResponse r now
        { s with
          messageCount := tt.count + 1
          sessions := s.sessions.map (bumpCount sid) }
    else s

/-- Terminal status assigned to a session by the way its loop ended. -/
def outcomeStatus : Outcome → SessionStatus
  | Outcome.completed => SessionStatus.completed
  | Outcome.abortError => SessionStatus.cancelled
  | Outcome.streamError c => SessionStatus.errored c

/-- The catch/finally epilogue of session `sid`'s `connectToStream`
invocation, run once when its loop ends with outcome `o`: an
`AbortError` is only logged, any other error sets `error` to the
derived message, and the finally block unconditionally sets
`isConnected` to false and nulls `abortControllerRef.current`. -/
def closeSession (sid : Nat) (st : SessionStatus) (uu : Session) : Session :=
  if uu.id == sid then { uu with status := st } else uu

def sessionEnd (sid : Nat) (o : Outcome) (s : ClientState) : ClientState :=
  match s.sessions.find? (fun tt => tt.id == sid) with
  | none => s
  | some tt =>
    if tt.status = SessionStatus.pending then
      { s with
        sessions := s.sessions.map (closeSession sid (outcomeStatus o))
        error :=
          match o with
          | Outcome.streamError c => some (humanMessage c)
          | _ => s.error
        isConnected := false
        abortRef := none }
    else s

/-- A change of the subscription parameters: React re-runs the
`[filter, sortBy]` effect.  The cleanup of the previous run clears the
debounce timer and calls `disconnect()`; the new body calls
`disconnect()` again when connected and schedules `connectToStream`
100ms later. -/
def setParameters (f sb : String) (s : ClientState) : ClientState :=
  let s1 := disconnect { s with timer := none }
  let s2 := { s1 with filter := f, sortBy := sb }
  let s3 := if s2.isConnected then disconnect s2 else s2
  { s3 with timer := some () }

/-- The debounce timer firing: the scheduled `connectToStream` runs
(with the parameters current at that moment — any later change would
have cleared this timer). -/
def tick (s : ClientState) : ClientState :=
  match s.timer with
  | none => s
  | some _ => connectToStream { s with timer := none }

/-- The external happenings the controller reacts to. -/
inductive Event where
  | connect
  | disconnectE
  | setParams (f sb : String)
  | tickE
  | deliverE (sid : Nat) (r : DataStreamResponse) (now : Nat)
  | endE (sid : Nat) (o : Outcome)
deriving DecidableEq, Repr

/-- Small-step semantics of the controller. -/
def step : Event → ClientState → ClientState
  | Event.connect, s => connectToStream s
  | Event.disconnectE, s => disconnect s
  | Event.setParams f sb, s => setParameters f sb s
  | Event.tickE, s => tick s
  | Event.deliverE sid r now, s => deliver sid r now s
  | Event.endE sid o, s => sessionEnd sid o s

/-- Running a sequence of events. -/
def run (es : List Event) (s : ClientState) : ClientState :=
  es.foldl (fun t e => step e t) s

/-- The component's initial state: the `useState` initial values,
no sessions, no timer, client initialized. -/
def s0 : ClientState :=
  { stocks := []
    isConnected := false
    error := none
    filter := "all"
    sortBy := "percent_change"
    lastUpdate := none
    messageCount := 0
    abortRef := none
    sessions := []
    nextId := 0
    timer := none
    clientReady := true }

/-- Number of non-terminal (pending) sessions. -/
def pendingCount : List Session → Nat
  | [] => 0
  | tt :: rest =>
    (if tt.status = SessionStatus.pending then 1 else 0) + pendingCount rest

/-- Whether a session is live: pending, with cancellation not yet
requested on its abort controller. -/
def Session.live (tt : Session) : Bool :=
  decide (tt.status = SessionStatus.pending) && !tt.aborted

/-- Number of live sessions. -/
def liveCount : List Session → Nat
  | [] => 0
  | tt :: rest => (if tt.live then 1 else 0) + liveCount rest

/-- The derived aggregate counts computed from the displayed list.
The source predicates are transcribed with JavaScript truthiness:
`s.change && s.change > 0` is truthy iff the change is nonzero and
positive, `s.change && s.change < 0` iff nonzero and negative, and
`s.change === 0` iff the change is exactly zero. -/
structure Stats where
  total : Nat
  gainers : Nat
  losers : Nat
  unchanged : Nat
deriving DecidableEq, Repr

/-- The `stats` object of the component. -/
def computeStats (stocks : List EStockInfo) : Stats :=
  { total := stocks.length
    gainers :=
      (stocks.filter fun t =>
        decide (t.change ≠ 0) && decide (0 < t.change)).length
    losers :=
      (stocks.filter fun t =>
        decide (t.change ≠ 0) && decide (t.change < 0)).length
    unchanged := (stocks.filter fun t => decide (t.change = 0)).length }

/-- A no-pending-session predicate: every opened session has reached a
terminal status. -/
def noPending (s : ClientState) : Prop :=
  ∀ tt ∈ s.sessions, tt.status ≠ SessionStatus.pending

/-- A no-live-session predicate: no session is both pending and
un-aborted. -/
def noLive (s : ClientState) : Prop :=
  ∀ tt ∈ s.sessions, tt.live = false

/-- Guard expressing that `connectToStream` (directly or through the
debounce timer) only fires when no live session exists. -/
def connectGuard (e : Event) (s : ClientState) : Prop :=
  (e = Event.connect ∨ e = Event.tickE) → noLive s

/-- Single-session discipline: `connectToStream` only fires when no
session is pending at all. -/
def singleGuard (e : Event) (s : ClientState) : Prop :=
  (e = Event.connect ∨ e = Event.tickE) → noPending s

/-- The counter-mirror invariant of the single-session regime: all
pending sessions share one id and their local count equals the
published `messageCount`. -/
def countMirror (s : ClientState) : Prop :=
  ∃ i, ∀ tt ∈ s.sessions, tt.status = SessionStatus.pending →
    tt.id = i ∧ tt.count = s.messageCount

/-- Whether event `e` actually starts a new streaming call from `s`. -/
def connectFires (e : Event) (s : ClientState) : Bool :=
  match e with
  | Event.connect => s.clientReady
  | Event.tickE => s.timer.isSome && s.clientReady
  | _ => false

/-- A sample instrument used in concrete witnesses. -/
def stockA : EStockInfo :=
  { code := "BBCA", name := "Bank Central Asia", price := 9000
    change := 50, percentChange := 1, totalVolume := 1000
    value := 9000000, totalFreq := 70 }

/-- A sample instrument with negative change. -/
def stockB : EStockInfo :=
  { code := "TLKM", name := "Telkom Indonesia", price := 3000
    change := -20, percentChange := -1, totalVolume := 500
    value := 1500000, totalFreq := 40 }

/-- A sample success response carrying `stockA`. -/
def respA : DataStreamResponse :=
  { code := 200, data := some [stockA], message := "ok" }

/-- A sample success response carrying `stockB`. -/
def respB : DataStreamResponse :=
  { code := 200, data := some [stockB], message := "ok" }

/-! Helper lemmas about the embedded operations. -/

theorem liveCount_append (l1 l2 : List Session) :
    liveCount (l1 ++ l2) = liveCount l1 + liveCount l2 := by
  induction l1 with
  | nil => simp [liveCount]
  | cons hd tl ih =>
    simp only [List.cons_append, liveCount, List.append_eq, ih]
    omega

theorem liveCount_map_le (f : Session → Session) (l : List Session)
    (hf : ∀ tt, (f tt).live = true → tt.live = true) :
    liveCount (l.map f) ≤ liveCount l := by
  induction l with
  | nil => simp [liveCount]
  | cons hd tl ih =>
    simp only [List.map_cons, liveCount]
    have hh : (if (f hd).live then 1 else 0) ≤ (if hd.live then 1 else 0) := by
      by_cases h : (f hd).live = true
      · simp [h, hf hd h]
      · simp [h]
    omega

theorem liveCount_map_eq (f : Session → Session) (l : List Session)
    (hf : ∀ tt, (f tt).live = tt.live) :
    liveCount (l.map f) = liveCount l := by
  induction l with
  | nil => rfl
  | cons hd tl ih => simp only [List.map_cons, liveCount, hf, ih]

theorem liveCount_eq_zero (l : List Session)
    (h : ∀ tt ∈ l, tt.live = false) : liveCount l = 0 := by
  induction l with
  | nil => rfl
  | cons hd tl ih =>
    have h1 : hd.live = false := h hd (List.mem_cons_self hd tl)
    have h2 : liveCount tl = 0 :=
      ih fun tt htt => h tt (List.mem_cons_of_mem hd htt)
    simp [liveCount, h1, h2]

theorem map_idem (f : Session → Session) (hf : ∀ a, f (f a) = f a)
    (l : List Session) : (l.map f).map f = l.map f := by
  induction l with
  | nil => rfl
  | cons hd tl ih => simp only [List.map_cons, hf, ih]

theorem disconnect_frame (s : ClientState) :
    (disconnect s).stocks = s.stocks ∧
    (disconnect s).isConnected = s.isConnected ∧
    (disconnect s).error = s.error ∧
    (disconnect s).lastUpdate = s.lastUpdate ∧
    (disconnect s).messageCount = s.messageCount ∧
    (disconnect s).abortRef = s.abortRef ∧
    (disconnect s).filter = s.filter ∧
    (disconnect s).sortBy = s.sortBy ∧
    (disconnect s).timer = s.timer ∧
    (disconnect s).clientReady = s.clientReady ∧
    (disconnect s).nextId = s.nextId := by
  unfold disconnect
  cases h : s.abortRef <;> simp [h]

theorem applyResponse_frame (r : DataStreamResponse) (now : Nat)
    (s : ClientState) :
    (applyResponse r now s).messageCount = s.messageCount ∧
    (applyResponse r now s).error = s.error ∧
    (applyResponse r now s).isConnected = s.isConnected ∧
    (applyResponse r now s).sessions = s.sessions ∧
    (applyResponse r now s).abortRef = s.abortRef := by
  unfold applyResponse
  cases h : r.data with
  | none => simp
  | some d => by_cases hc : r.code = 200 <;> simp [hc]

theorem deliver_isConnected (sid : Nat) (r : DataStreamResponse) (now : Nat)
    (s : ClientState) : (deliver sid r now s).isConnected = s.isConnected := by
  unfold deliver
  cases h : s.sessions.find? (fun tt => tt.id == sid) with
  | none => rfl
  | some tt =>
    by_cases hp : tt.status = SessionStatus.pending ∧ tt.aborted = false
    · simp only [hp, if_pos]
      exact (applyResponse_frame r now _).2.2.1
    · simp [hp]

theorem setParameters_isConnected (f sb : String) (s : ClientState) :
    (setParameters f sb s).isConnected = s.isConnected := by
  have hd : ∀ t : ClientState, (disconnect t).isConnected = t.isConnected :=
    fun t => (disconnect_frame t).2.1
  simp only [setParameters]
  split
  · exact (hd _).trans (hd _)
  · exact hd _

theorem abortSession_id (i : Nat) (tt : Session) :
    (abortSession i tt).id = tt.id := by
  unfold abortSession
  by_cases h : (tt.id == i) = true <;> simp [h]

theorem abortSession_idem (i : Nat) (tt : Session) :
    abortSession i (abortSession i tt) = abortSession i tt := by
  unfold abortSession
  by_cases h : (tt.id == i) = true <;> simp [h]

theorem abortSession_live (i : Nat) (tt : Session)
    (h : (abortSession i tt).live = true) : tt.live = true := by
  unfold abortSession at h
  by_cases hid : (tt.id == i) = true
  · rw [if_pos hid] at h
    simp [Session.live] at h
  · rwa [if_neg hid] at h

theorem bumpCount_id (sid : Nat) (uu : Session) :
    (bumpCount sid uu).id = uu.id := by
  unfold bumpCount
  by_cases h : (uu.id == sid) = true <;> simp [h]

theorem bumpCount_live (sid : Nat) (uu : Session) :
    (bumpCount sid uu).live = uu.live := by
  unfold bumpCount
  by_cases h : (uu.id == sid) = true <;> simp [h, Session.live]

theorem outcomeStatus_ne_pending (o : Outcome) :
    outcomeStatus o ≠ SessionStatus.pending := by
  cases o <;> simp [outcomeStatus]

theorem closeSession_live (sid : Nat) (o : Outcome) (uu : Session)
    (h : (closeSession sid (outcomeStatus o) uu).live = true) :
    uu.live = true := by
  unfold closeSession at h
  by_cases hid : (uu.id == sid) = true
  · rw [if_pos hid] at h
    simp [Session.live, outcomeStatus_ne_pending] at h
  · rwa [if_neg hid] at h

theorem disconnect_none (s : ClientState) (h : s.abortRef = none) :
    disconnect s = s := by
  unfold disconnect
  rw [h]

theorem disconnect_some (s : ClientState) (i : Nat) (h : s.abortRef = some i) :
    disconnect s = { s with sessions := s.sessions.map (abortSession i) } := by
  unfold disconnect
  rw [h]

theorem disconnect_liveCount_le (s : ClientState) :
    liveCount (disconnect s).sessions ≤ liveCount s.sessions := by
  cases h : s.abortRef with
  | none => rw [disconnect_none s h]
  | some i =>
    rw [disconnect_some s i h]
    exact liveCount_map_le (abortSession i) s.sessions
      (abortSession_live i)

theorem deliver_liveCount (sid : Nat) (r : DataStreamResponse) (now : Nat)
    (s : ClientState) :
    liveCount (deliver sid r now s).sessions = liveCount s.sessions := by
  unfold deliver
  cases h : s.sessions.find? (fun tt => tt.id == sid) with
  | none => rfl
  | some tt =>
    dsimp only
    by_cases hp : tt.status = SessionStatus.pending ∧ tt.aborted = false
    · rw [if_pos hp]
      rw [(applyResponse_frame r now _).2.2.2.1]
      exact liveCount_map_eq (bumpCount sid) s.sessions (bumpCount_live sid)
    · rw [if_neg hp]

theorem sessionEnd_liveCount_le (sid : Nat) (o : Outcome) (s : ClientState) :
    liveCount (sessionEnd sid o s).sessions ≤ liveCount s.sessions := by
  unfold sessionEnd
  cases h : s.sessions.find? (fun tt => tt.id == sid) with
  | none => exact le_refl _
  | some tt =>
    dsimp only
    by_cases hp : tt.status = SessionStatus.pending
    · rw [if_pos hp]
      exact liveCount_map_le (closeSession sid (outcomeStatus o)) s.sessions
        (closeSession_live sid o)
    · rw [if_neg hp]

theorem setParameters_liveCount_le (f sb : String) (s : ClientState) :
    liveCount (setParameters f sb s).sessions ≤ liveCount s.sessions := by
  simp only [setParameters]
  split
  · exact le_trans (disconnect_liveCount_le _) (disconnect_liveCount_le _)
  · exact disconnect_liveCount_le _

theorem setParameters_frame (f sb : String) (s : ClientState) :
    (setParameters f sb s).messageCount = s.messageCount ∧
    (setParameters f sb s).stocks = s.stocks ∧
    (setParameters f sb s).error = s.error ∧
    (setParameters f sb s).lastUpdate = s.lastUpdate ∧
    (setParameters f sb s).clientReady = s.clientReady := by
  have hd := disconnect_frame
  simp only [setParameters]
  split
  · exact ⟨((hd _).2.2.2.2.1).trans ((hd _).2.2.2.2.1),
      ((hd _).1).trans ((hd _).1),
      ((hd _).2.2.1).trans ((hd _).2.2.1),
      ((hd _).2.2.2.1).trans ((hd _).2.2.2.1),
      ((hd _).2.2.2.2.2.2.2.2.2.1).trans ((hd _).2.2.2.2.2.2.2.2.2.1)⟩
  · exact ⟨(hd _).2.2.2.2.1, (hd _).1, (hd _).2.2.1, (hd _).2.2.2.1,
      (hd _).2.2.2.2.2.2.2.2.2.1⟩

theorem find?_map_bump (l : List Session) (sid : Nat) :
    (l.map (bumpCount sid)).find? (fun uu => uu.id == sid) =
      (l.find? (fun uu => uu.id == sid)).map (bumpCount sid) := by
  induction l with
  | nil => rfl
  | cons hd tl ih =>
    simp only [List.map_cons, List.find?_cons, bumpCount_id]
    by_cases h : (hd.id == sid) = true
    · simp [h]
    · rw [Bool.not_eq_true] at h
      simp [h, ih]

theorem filter_length_eq (p q : EStockInfo → Bool) (l : List EStockInfo)
    (h : ∀ a, p a = q a) : (l.filter p).length = (l.filter q).length := by
  have hpq : p = q := funext h
  rw [hpq]

theorem abortSession_cases (i : Nat) (uu : Session) :
    abortSession i uu = uu ∨
    abortSession i uu = { uu with aborted := true } := by
  unfold abortSession
  by_cases h : (uu.id == i) = true
  · exact Or.inr (by rw [if_pos h])
  · exact Or.inl (by rw [if_neg h])

theorem bumpCount_cases (sid : Nat) (uu : Session) :
    ((uu.id == sid) = false ∧ bumpCount sid uu = uu) ∨
    ((uu.id == sid) = true ∧
      bumpCount sid uu = { uu with count := uu.count + 1 }) := by
  unfold bumpCount
  by_cases h : (uu.id == sid) = true
  · exact Or.inr ⟨h, by rw [if_pos h]⟩
  · exact Or.inl ⟨by revert h; cases uu.id == sid <;> simp,
      by rw [if_neg h]⟩

theorem closeSession_cases (sid : Nat) (st : SessionStatus) (uu : Session) :
    closeSession sid st uu = uu ∨
    closeSession sid st uu = { uu with status := st } := by
  unfold closeSession
  by_cases h : (uu.id == sid) = true
  · exact Or.inr (by rw [if_pos h])
  · exact Or.inl (by rw [if_neg h])

theorem connect_mirror (t : ClientState) (hm : countMirror t)
    (hnp : noPending t) :
    countMirror (connectToStream t) ∧
    (t.clientReady = true → (connectToStream t).messageCount = 0) ∧
    (t.clientReady = false →
      (connectToStream t).messageCount = t.messageCount) := by
  by_cases hr : t.clientReady = false
  · have hc : connectToStream t =
        { t with error := some "gRPC client not initialized" } := by
      unfold connectToStream
      rw [if_pos hr]
    refine ⟨?_, ?_, fun _ => by rw [hc]⟩
    · rw [hc]
      exact hm
    · intro hr2
      rw [hr2] at hr
      exact absurd hr (by decide)
  · have hc : connectToStream t =
        { t with
          isConnected := true
          error := none
          stocks := []
          messageCount := 0
          abortRef := some t.nextId
          sessions := t.sessions ++
            [{ id := t.nextId
               params := { filter := t.filter, sort := t.sortBy }
               status := SessionStatus.pending
               aborted := false
               count := 0 }]
          nextId := t.nextId + 1 } := by
      unfold connectToStream
      rw [if_neg hr]
    refine ⟨?_, fun _ => by rw [hc], fun hrf => absurd hrf hr⟩
    rw [hc]
    refine ⟨t.nextId, fun tt htt hpend => ?_⟩
    cases List.mem_append.mp htt with
    | inl hmem => exact absurd hpend (hnp tt hmem)
    | inr hmem =>
      rw [List.mem_singleton] at hmem
      subst hmem
      exact ⟨rfl, rfl⟩

theorem mirror_disconnect (s : ClientState) (hm : countMirror s) :
    countMirror (disconnect s) := by
  cases h : s.abortRef with
  | none =>
    rw [disconnect_none s h]
    exact hm
  | some i =>
    rw [disconnect_some s i h]
    obtain ⟨j, hj⟩ := hm
    refine ⟨j, fun uu2 huu2 hpend2 => ?_⟩
    obtain ⟨uu, huu, rfl⟩ := List.mem_map.mp huu2
    rcases abortSession_cases i uu with hcase | hcase <;>
      rw [hcase] at hpend2 ⊢ <;> exact hj uu huu hpend2

theorem mirror_setParameters (f sb : String) (s : ClientState)
    (hm : countMirror s) : countMirror (setParameters f sb s) := by
  simp only [setParameters]
  have h1 : countMirror (disconnect { s with timer := none }) :=
    mirror_disconnect _ hm
  split
  · exact mirror_disconnect _ h1
  · exact h1

theorem mirror_deliver (sid : Nat) (r : DataStreamResponse) (now : Nat)
    (s : ClientState) (hm : countMirror s) :
    countMirror (deliver sid r now s) ∧
    s.messageCount ≤ (deliver sid r now s).messageCount := by
  unfold deliver
  cases hf : s.sessions.find? (fun uu => uu.id == sid) with
  | none => exact ⟨hm, le_refl _⟩
  | some tt =>
    dsimp only
    by_cases hp : tt.status = SessionStatus.pending ∧ tt.aborted = false
    · rw [if_pos hp]
      obtain ⟨j, hj⟩ := hm
      have htmem : tt ∈ s.sessions := List.mem_of_find?_eq_some hf
      have hidb := List.find?_some hf
      have hid : tt.id = sid := eq_of_beq hidb
      have hjt := hj tt htmem hp.1
      have haf := applyResponse_frame r now
        { s with
          messageCount := tt.count + 1
          sessions := s.sessions.map (bumpCount sid) }
      constructor
      · unfold countMirror
        rw [haf.2.2.2.1, haf.1]
        refine ⟨j, fun uu2 huu2 hpend2 => ?_⟩
        obtain ⟨uu, huu, rfl⟩ := List.mem_map.mp huu2
        rcases bumpCount_cases sid uu with ⟨hneq, hcase⟩ | ⟨heq, hcase⟩
        · rw [hcase] at hpend2 ⊢
          have hju := hj uu huu hpend2
          exfalso
          have huid : uu.id = sid := by rw [hju.1, ← hjt.1, hid]
          rw [huid] at hneq
          simp at hneq
        · rw [hcase] at hpend2 ⊢
          have hju := hj uu huu hpend2
          exact ⟨hju.1, by rw [hju.2, hjt.2]⟩
      · rw [haf.1]
        show s.messageCount ≤ tt.count + 1
        rw [hjt.2]
        exact Nat.le_succ _
    · rw [if_neg hp]
      exact ⟨hm, le_refl _⟩

theorem mirror_sessionEnd (sid : Nat) (o : Outcome) (s : ClientState)
    (hm : countMirror s) :
    countMirror (sessionEnd sid o s) ∧
    (sessionEnd sid o s).messageCount = s.messageCount := by
  unfold sessionEnd
  cases hf : s.sessions.find? (fun uu => uu.id == sid) with
  | none => exact ⟨hm, rfl⟩
  | some tt =>
    dsimp only
    by_cases hp : tt.status = SessionStatus.pending
    · rw [if_pos hp]
      obtain ⟨j, hj⟩ := hm
      refine ⟨⟨j, fun uu2 huu2 hpend2 => ?_⟩, rfl⟩
      obtain ⟨uu, huu, rfl⟩ := List.mem_map.mp huu2
      rcases closeSession_cases sid (outcomeStatus o) uu with hcase | hcase
      · rw [hcase] at hpend2 ⊢
        exact hj uu huu hpend2
      · rw [hcase] at hpend2
        exact absurd hpend2 (outcomeStatus_ne_pending o)
    · rw [if_neg hp]
      exact ⟨hm, rfl⟩

/-! The claims. -/

/-- Claim C8: `disconnect()` is idempotent — calling it twice in a row
has the same effect as calling it once; it is a no-op when no session
is referenced by the abort controller; and it never clears the
displayed instrument list, `messageCount`, or the other statistics
(`lastUpdate`, `lastError`). -/
theorem claim_C8 (s : ClientState) :
    disconnect (disconnect s) = disconnect s ∧
    (s.abortRef = none → disconnect s = s) ∧
    (disconnect s).stocks = s.stocks ∧
    (disconnect s).messageCount = s.messageCount ∧
    (disconnect s).lastUpdate = s.lastUpdate ∧
    (disconnect s).error = s.error := by
  have hf := disconnect_frame s
  refine ⟨?_, fun h => disconnect_none s h, hf.1, hf.2.2.2.2.1,
    hf.2.2.2.1, hf.2.2.1⟩
  cases h : s.abortRef with
  | none => rw [disconnect_none s h, disconnect_none s h]
  | some i =>
    have h3 : (disconnect s).abortRef = some i := by
      rw [hf.2.2.2.2.2.1, h]
    rw [disconnect_some (disconnect s) i h3, disconnect_some s i h]
    show ({ s with
      sessions := (s.sessions.map (abortSession i)).map (abortSession i) } :
        ClientState) =
      { s with sessions := s.sessions.map (abortSession i) }
    rw [map_idem (abortSession i) (abortSession_idem i) s.sessions]

/-- Witness for C8 at the initial state: double disconnect equals
single disconnect, and with no abort controller the call is the
identity. -/
theorem claim_C8_witness :
    disconnect (disconnect s0) = disconnect s0 ∧ disconnect s0 = s0 :=
  ⟨(claim_C8 s0).1, (claim_C8 s0).2.1 rfl⟩

/-- Claim C9: the derived aggregates satisfy `total` = length of the
displayed list, `gainers` = count of instruments with positive change,
`losers` = count with negative change, `unchanged` = count with zero
change. -/
theorem claim_C9 (l : List EStockInfo) :
    (computeStats l).total = l.length ∧
    (computeStats l).gainers =
      (l.filter fun t => decide (0 < t.change)).length ∧
    (computeStats l).losers =
      (l.filter fun t => decide (t.change < 0)).length ∧
    (computeStats l).unchanged =
      (l.filter fun t => decide (t.change = 0)).length := by
  refine ⟨rfl, ?_, ?_, rfl⟩
  · show (l.filter fun t =>
        decide (t.change ≠ 0) && decide (0 < t.change)).length =
      (l.filter fun t => decide (0 < t.change)).length
    apply filter_length_eq
    intro a
    by_cases h : 0 < a.change
    · have h2 : a.change ≠ 0 := by omega
      simp [h, h2]
    · simp [h]
  · show (l.filter fun t =>
        decide (t.change ≠ 0) && decide (t.change < 0)).length =
      (l.filter fun t => decide (t.change < 0)).length
    apply filter_length_eq
    intro a
    by_cases h : a.change < 0
    · have h2 : a.change ≠ 0 := by omega
      simp [h, h2]
    · simp [h]

/-- Claim C10: `disconnect()` itself mutates no observable state —
`isConnected`, `lastError`, `messageCount`, `lastUpdate` and the
displayed list are unchanged by the call — and `isConnected` can only
transition from true to false through a session-end event (the
finalization of a session's message loop). -/
theorem claim_C10 (s : ClientState) (e : Event) :
    (disconnect s).isConnected = s.isConnected ∧
    (disconnect s).error = s.error ∧
    (disconnect s).messageCount = s.messageCount ∧
    (disconnect s).lastUpdate = s.lastUpdate ∧
    (disconnect s).stocks = s.stocks ∧
    (s.isConnected = true → (step e s).isConnected = false →
      ∃ sid o, e = Event.endE sid o) := by
  have hf := disconnect_frame s
  refine ⟨hf.2.1, hf.2.2.1, hf.2.2.2.2.1, hf.2.2.2.1, hf.1, ?_⟩
  intro h1 h2
  cases e with
  | connect =>
    simp only [step] at h2
    unfold connectToStream at h2
    split at h2 <;> simp [h1] at h2
  | disconnectE =>
    simp only [step] at h2
    rw [hf.2.1, h1] at h2
    exact absurd h2 (by decide)
  | setParams f sb =>
    simp only [step] at h2
    rw [setParameters_isConnected, h1] at h2
    exact absurd h2 (by decide)
  | tickE =>
    simp only [step] at h2
    unfold tick at h2
    cases ht : s.timer with
    | none =>
      rw [ht] at h2
      simp [h1] at h2
    | some u =>
      rw [ht] at h2
      dsimp only at h2
      unfold connectToStream at h2
      split at h2 <;> simp [h1] at h2
  | deliverE sid r now =>
    simp only [step] at h2
    rw [deliver_isConnected, h1] at h2
    exact absurd h2 (by decide)
  | endE sid o => exact ⟨sid, o, rfl⟩

/-- Counterexample to claim C1 as stated: two consecutive `connect()`
calls from the initial state leave the controller with two pending
(non-terminal) sessions — `connectToStream` has no already-active
guard, and the new abort controller silently replaces the old one
without cancelling it. -/
theorem claim_C1_counterexample :
    pendingCount (run [Event.connect, Event.connect] s0).sessions = 2 ∧
    liveCount (run [Event.connect, Event.connect] s0).sessions = 2 :=
  ⟨rfl, rfl⟩

/-- Claim C1 amended: at most one live session (pending, cancellation
not yet requested) exists at any instant, provided `connectToStream`
— invoked directly or through the debounce timer — only fires when no
live session exists (as the UI enforces: the button toggles to
Disconnect while connected, and a parameter change aborts the active
session before scheduling the reopen).  A cancel-requested session may
remain non-terminal until its loop observes the abort. -/
theorem claim_C1_amended (s : ClientState) (e : Event)
    (h : liveCount s.sessions ≤ 1) (hg : connectGuard e s) :
    liveCount (step e s).sessions ≤ 1 := by
  cases e with
  | connect =>
    have hz : liveCount s.sessions = 0 :=
      liveCount_eq_zero s.sessions fun tt htt => hg (Or.inl rfl) tt htt
    simp only [step]
    unfold connectToStream
    split
    · exact h
    · show liveCount (s.sessions ++ [_]) ≤ 1
      rw [liveCount_append, hz]
      simp [liveCount, Session.live]
  | disconnectE =>
    simp only [step]
    exact le_trans (disconnect_liveCount_le s) h
  | setParams f sb =>
    simp only [step]
    exact le_trans (setParameters_liveCount_le f sb s) h
  | tickE =>
    simp only [step]
    unfold tick
    cases ht : s.timer with
    | none => exact h
    | some u =>
      dsimp only
      have hz : liveCount s.sessions = 0 :=
        liveCount_eq_zero s.sessions fun tt htt => hg (Or.inr rfl) tt htt
      unfold connectToStream
      split
      · exact h
      · show liveCount (s.sessions ++ [_]) ≤ 1
        rw [liveCount_append, hz]
        simp [liveCount, Session.live]
  | deliverE sid r now =>
    simp only [step]
    rw [deliver_liveCount]
    exact h
  | endE sid o =>
    simp only [step]
    exact le_trans (sessionEnd_liveCount_le sid o s) h

/-- Witness for the amended C1 at the initial state and a connect
event. -/
theorem claim_C1_witness :
    liveCount (step Event.connect s0).sessions ≤ 1 :=
  claim_C1_amended s0 Event.connect (by decide)
    (fun _ => fun tt htt => absurd htt (List.not_mem_nil tt))

/-- Counterexample to claim C2 as stated: in a state with one live
session and a displayed instrument, calling `connectToStream` again is
not a no-op — it clears the displayed list and opens a second pending
session. -/
theorem claim_C2_counterexample :
    liveCount (run [Event.connect, Event.deliverE 0 respA 1] s0).sessions
      = 1 ∧
    (run [Event.connect, Event.deliverE 0 respA 1] s0).stocks = [stockA] ∧
    (connectToStream
      (run [Event.connect, Event.deliverE 0 respA 1] s0)).stocks = [] ∧
    pendingCount (connectToStream
      (run [Event.connect, Event.deliverE 0 respA 1] s0)).sessions = 2 :=
  ⟨rfl, rfl, rfl, rfl⟩

/-- Claim C2 amended: `connectToStream` does not check for an active
session.  Whenever the client capability is initialized it
unconditionally clears the displayed list, `messageCount` and
`lastError`, sets `isConnected`, repoints the abort controller at a
fresh session, and adds that session — incrementing the number of live
sessions by one and leaving every prior session in place (so a
prior live session keeps running but can no longer be cancelled).
When the capability is missing, only the "client not ready" error is
surfaced. -/
theorem claim_C2_amended (s : ClientState) (h : s.clientReady = true) :
    (connectToStream s).stocks = [] ∧
    (connectToStream s).messageCount = 0 ∧
    (connectToStream s).error = none ∧
    (connectToStream s).isConnected = true ∧
    (connectToStream s).abortRef = some s.nextId ∧
    liveCount (connectToStream s).sessions = liveCount s.sessions + 1 ∧
    (∀ tt ∈ s.sessions, tt ∈ (connectToStream s).sessions) ∧
    ((connectToStream { s with clientReady := false }).error =
      some "gRPC client not initialized") := by
  have hc : connectToStream s =
      { s with
        isConnected := true
        error := none
        stocks := []
        messageCount := 0
        abortRef := some s.nextId
        sessions := s.sessions ++
          [{ id := s.nextId
             params := { filter := s.filter, sort := s.sortBy }
             status := SessionStatus.pending
             aborted := false
             count := 0 }]
        nextId := s.nextId + 1 } := by
    unfold connectToStream
    rw [if_neg (by simp [h])]
  refine ⟨by rw [hc], by rw [hc], by rw [hc], by rw [hc], by rw [hc],
    ?_, ?_, by unfold connectToStream; rw [if_pos rfl]⟩
  · rw [hc]
    show liveCount (s.sessions ++ [_]) = _
    rw [liveCount_append]
    simp [liveCount, Session.live]
  · intro tt htt
    rw [hc]
    show tt ∈ s.sessions ++ [_]
    exact List.mem_append_left _ htt

/-- Witness for the amended C2 in a state with one live session and a
displayed instrument. -/
theorem claim_C2_witness :
    (connectToStream
      (run [Event.connect, Event.deliverE 0 respA 1] s0)).stocks = [] ∧
    (connectToStream
      (run [Event.connect, Event.deliverE 0 respA 1] s0)).messageCount
      = 0 ∧
    (connectToStream
      (run [Event.connect, Event.deliverE 0 respA 1] s0)).error = none ∧
    (connectToStream
      (run [Event.connect, Event.deliverE 0 respA 1] s0)).isConnected
      = true ∧
    (connectToStream
      (run [Event.connect, Event.deliverE 0 respA 1] s0)).abortRef =
      some (run [Event.connect, Event.deliverE 0 respA 1] s0).nextId ∧
    liveCount (connectToStream
      (run [Event.connect, Event.deliverE 0 respA 1] s0)).sessions =
      liveCount
        (run [Event.connect, Event.deliverE 0 respA 1] s0).sessions + 1 ∧
    (∀ tt ∈ (run [Event.connect, Event.deliverE 0 respA 1] s0).sessions,
      tt ∈ (connectToStream
        (run [Event.connect, Event.deliverE 0 respA 1] s0)).sessions) ∧
    ((connectToStream
      { (run [Event.connect, Event.deliverE 0 respA 1] s0) with
        clientReady := false }).error =
      some "gRPC client not initialized") :=
  claim_C2_amended (run [Event.connect, Event.deliverE 0 respA 1] s0) rfl

/-- Counterexample to claim C6 as stated: because `connectToStream`
never cancels a prior session, two pending sessions can deliver
messages alternately, and the published `messageCount` then drops from
3 to 1 on a deliver event — not monotonically non-decreasing while
sessions are active, with no intervening `connect()`. -/
theorem claim_C6_counterexample :
    (run [Event.connect, Event.deliverE 0 respA 1, Event.deliverE 0 respA 2,
          Event.connect, Event.deliverE 0 respA 3] s0).messageCount = 3 ∧
    pendingCount
      (run [Event.connect, Event.deliverE 0 respA 1, Event.deliverE 0 respA 2,
            Event.connect, Event.deliverE 0 respA 3] s0).sessions = 2 ∧
    (run [Event.connect, Event.deliverE 0 respA 1, Event.deliverE 0 respA 2,
          Event.connect, Event.deliverE 0 respA 3,
          Event.deliverE 1 respA 4] s0).messageCount = 1 :=
  ⟨rfl, rfl, rfl⟩

/-- Claim C6 amended: in the single-session regime — `connectToStream`
(directly or via the debounce timer) fires only when no session is
pending — the published `messageCount` mirrors the unique pending
session's counter, is reset to 0 exactly when a connect fires, and
never decreases on any other event. -/
theorem claim_C6_amended (s : ClientState) (e : Event)
    (hinv : countMirror s) (hg : singleGuard e s) :
    countMirror (step e s) ∧
    (connectFires e s = true → (step e s).messageCount = 0) ∧
    (connectFires e s = false →
      s.messageCount ≤ (step e s).messageCount) := by
  cases e with
  | connect =>
    have hcm := connect_mirror s hinv (hg (Or.inl rfl))
    refine ⟨hcm.1, fun hcf => hcm.2.1 hcf, fun hcf => ?_⟩
    exact le_of_eq (hcm.2.2 hcf).symm
  | disconnectE =>
    simp only [step]
    exact ⟨mirror_disconnect s hinv,
      fun hcf => by simp [connectFires] at hcf,
      fun _ => le_of_eq ((disconnect_frame s).2.2.2.2.1).symm⟩
  | setParams f sb =>
    simp only [step]
    exact ⟨mirror_setParameters f sb s hinv,
      fun hcf => by simp [connectFires] at hcf,
      fun _ => le_of_eq ((setParameters_frame f sb s).1).symm⟩
  | tickE =>
    simp only [step]
    cases ht : s.timer with
    | none =>
      have htick : tick s = s := by unfold tick; rw [ht]
      rw [htick]
      exact ⟨hinv, fun hcf => by simp [connectFires, ht] at hcf,
        fun _ => le_refl _⟩
    | some u =>
      have htick : tick s = connectToStream { s with timer := none } := by
        unfold tick
        rw [ht]
      rw [htick]
      have hcm := connect_mirror { s with timer := none } hinv
        (hg (Or.inr rfl))
      refine ⟨hcm.1, fun hcf => ?_, fun hcf => ?_⟩
      · have hrdy : s.clientReady = true := by
          simp [connectFires, ht] at hcf
          exact hcf
        exact hcm.2.1 hrdy
      · have hrdy : s.clientReady = false := by
          simp [connectFires, ht] at hcf
          exact hcf
        exact le_of_eq (hcm.2.2 hrdy).symm
  | deliverE sid r now =>
    simp only [step]
    exact ⟨(mirror_deliver sid r now s hinv).1,
      fun hcf => by simp [connectFires] at hcf,
      fun _ => (mirror_deliver sid r now s hinv).2⟩
  | endE sid o =>
    simp only [step]
    exact ⟨(mirror_sessionEnd sid o s hinv).1,
      fun hcf => by simp [connectFires] at hcf,
      fun _ => le_of_eq (mirror_sessionEnd sid o s hinv).2.symm⟩

/-- Witness for the amended C6 at the initial state and a connect
event. -/
theorem claim_C6_witness :
    countMirror (step Event.connect s0) ∧
    (connectFires Event.connect s0 = true →
      (step Event.connect s0).messageCount = 0) ∧
    (connectFires Event.connect s0 = false →
      s0.messageCount ≤ (step Event.connect s0).messageCount) :=
  claim_C6_amended s0 Event.connect
    ⟨0, fun tt htt _ => absurd htt (List.not_mem_nil tt)⟩
    (fun _ => fun tt htt => absurd htt (List.not_mem_nil tt))

/-- Claim C3: whenever a pending session's message sequence ends —
for every outcome — the controller sets `isConnected` to false and
clears the abort-controller reference; a cancellation (`AbortError`)
leaves `lastError` untouched, a normal completion records no error,
and a stream error sets `lastError` to the human-readable message
derived from the cause. -/
theorem claim_C3 (s : ClientState) (sid : Nat) (tt : Session)
    (hfind : s.sessions.find? (fun uu => uu.id == sid) = some tt)
    (hpend : tt.status = SessionStatus.pending) :
    (∀ o : Outcome, (sessionEnd sid o s).isConnected = false ∧
      (sessionEnd sid o s).abortRef = none) ∧
    (sessionEnd sid Outcome.abortError s).error = s.error ∧
    (sessionEnd sid Outcome.completed s).error = s.error ∧
    (∀ c, (sessionEnd sid (Outcome.streamError c) s).error =
      some (humanMessage c)) := by
  have hs : ∀ o : Outcome, sessionEnd sid o s =
      { s with
        sessions := s.sessions.map (closeSession sid (outcomeStatus o))
        error :=
          match o with
          | Outcome.streamError c => some (humanMessage c)
          | _ => s.error
        isConnected := false
        abortRef := none } := by
    intro o
    unfold sessionEnd
    rw [hfind]
    dsimp only
    rw [if_pos hpend]
  exact ⟨fun o => ⟨by rw [hs o], by rw [hs o]⟩,
    by rw [hs Outcome.abortError],
    by rw [hs Outcome.completed],
    fun c => by rw [hs (Outcome.streamError c)]⟩

/-- Witness for C3 in the state reached by `connect()` from the
initial state, at the session just opened. -/
theorem claim_C3_witness :
    (∀ o : Outcome,
      (sessionEnd 0 o (run [Event.connect] s0)).isConnected = false ∧
      (sessionEnd 0 o (run [Event.connect] s0)).abortRef = none) ∧
    (sessionEnd 0 Outcome.abortError (run [Event.connect] s0)).error =
      (run [Event.connect] s0).error ∧
    (sessionEnd 0 Outcome.completed (run [Event.connect] s0)).error =
      (run [Event.connect] s0).error ∧
    (∀ c, (sessionEnd 0 (Outcome.streamError c)
      (run [Event.connect] s0)).error = some (humanMessage c)) :=
  claim_C3 (run [Event.connect] s0) 0
    { id := 0, params := { filter := "all", sort := "percent_change" },
      status := SessionStatus.pending, aborted := false, count := 0 }
    rfl rfl

/-- Claim C4: for every batch received on the active session, the
published `messageCount` (which mirrors the session's local counter)
is incremented; when the response code is 200 and a payload is
present, the displayed list is replaced by the payload and
`lastUpdate` is set to the current time; otherwise the displayed list
and `lastUpdate` are unchanged; in every case no error is recorded,
the connection flag is untouched, and the session remains in the
session list with only its counter advanced (the anomaly is
non-fatal). -/
theorem claim_C4 (s : ClientState) (sid : Nat) (tt : Session)
    (r : DataStreamResponse) (now : Nat)
    (hfind : s.sessions.find? (fun uu => uu.id == sid) = some tt)
    (hpend : tt.status = SessionStatus.pending)
    (habort : tt.aborted = false)
    (hmc : s.messageCount = tt.count) :
    (deliver sid r now s).messageCount = s.messageCount + 1 ∧
    (∀ d, r.data = some d → r.code = 200 →
      (deliver sid r now s).stocks = d ∧
      (deliver sid r now s).lastUpdate = some now) ∧
    (¬(r.code = 200 ∧ r.data ≠ none) →
      (deliver sid r now s).stocks = s.stocks ∧
      (deliver sid r now s).lastUpdate = s.lastUpdate) ∧
    (deliver sid r now s).error = s.error ∧
    (deliver sid r now s).isConnected = s.isConnected ∧
    (deliver sid r now s).sessions.find? (fun uu => uu.id == sid) =
      some { tt with count := tt.count + 1 } := by
  have hd : deliver sid r now s =
      applyResponse r now
        { s with
          messageCount := tt.count + 1
          sessions := s.sessions.map (bumpCount sid) } := by
    unfold deliver
    rw [hfind]
    dsimp only
    rw [if_pos ⟨hpend, habort⟩]
  have haf := applyResponse_frame r now
    { s with
      messageCount := tt.count + 1
      sessions := s.sessions.map (bumpCount sid) }
  refine ⟨?_, ?_, ?_, ?_, ?_, ?_⟩
  · rw [hd, haf.1, hmc]
  · intro d hdata hcode
    rw [hd]
    unfold applyResponse
    rw [hdata]
    dsimp only
    rw [if_pos hcode]
    exact ⟨rfl, rfl⟩
  · intro hno
    rw [hd]
    unfold applyResponse
    cases hdata : r.data with
    | none => exact ⟨rfl, rfl⟩
    | some d =>
      dsimp only
      have hcode : ¬ r.code = 200 := by
        intro hc
        exact hno ⟨hc, by simp [hdata]⟩
      rw [if_neg hcode]
      exact ⟨rfl, rfl⟩
  · rw [hd, haf.2.1]
  · rw [hd, haf.2.2.1]
  · rw [hd, haf.2.2.2.1]
    have hsess : ({ s with
        messageCount := tt.count + 1
        sessions := s.sessions.map (bumpCount sid) } :
          ClientState).sessions = s.sessions.map (bumpCount sid) := rfl
    rw [hsess, find?_map_bump, hfind]
    have hid := List.find?_some hfind
    show some (bumpCount sid tt) = some { tt with count := tt.count + 1 }
    unfold bumpCount
    rw [if_pos hid]

/-- Witness for C4: the first success batch delivered on the session
opened by `connect()` from the initial state. -/
theorem claim_C4_witness :
    (deliver 0 respA 5 (run [Event.connect] s0)).messageCount =
      (run [Event.connect] s0).messageCount + 1 ∧
    (∀ d, respA.data = some d → respA.code = 200 →
      (deliver 0 respA 5 (run [Event.connect] s0)).stocks = d ∧
      (deliver 0 respA 5 (run [Event.connect] s0)).lastUpdate = some 5) ∧
    (¬(respA.code = 200 ∧ respA.data ≠ none) →
      (deliver 0 respA 5 (run [Event.connect] s0)).stocks =
        (run [Event.connect] s0).stocks ∧
      (deliver 0 respA 5 (run [Event.connect] s0)).lastUpdate =
        (run [Event.connect] s0).lastUpdate) ∧
    (deliver 0 respA 5 (run [Event.connect] s0)).error =
      (run [Event.connect] s0).error ∧
    (deliver 0 respA 5 (run [Event.connect] s0)).isConnected =
      (run [Event.connect] s0).isConnected ∧
    (deliver 0 respA 5 (run [Event.connect] s0)).sessions.find?
        (fun uu => uu.id == 0) =
      some { id := 0, params := { filter := "all", sort := "percent_change" },
             status := SessionStatus.pending, aborted := false, count := 1 } :=
  claim_C4 (run [Event.connect] s0) 0
    { id := 0, params := { filter := "all", sort := "percent_change" },
      status := SessionStatus.pending, aborted := false, count := 0 }
    respA 5 rfl rfl rfl rfl

/-- Claim C5: a session whose stream emits success batches carrying
`l1, l2, l3` in that order drives the displayed list through exactly
the states `[] -> l1 -> l2 -> l3`, each batch replacing the previous
one, with `messageCount` counting 1, 2, 3 along the way. -/
theorem claim_C5 (s : ClientState) (l1 l2 l3 : List EStockInfo)
    (m1 m2 m3 : String) (n1 n2 n3 : Nat)
    (hready : s.clientReady = true) (hnil : s.sessions = []) :
    (run [Event.connect] s).stocks = [] ∧
    (run [Event.connect,
          Event.deliverE s.nextId ⟨200, some l1, m1⟩ n1] s).stocks = l1 ∧
    (run [Event.connect,
          Event.deliverE s.nextId ⟨200, some l1, m1⟩ n1,
          Event.deliverE s.nextId ⟨200, some l2, m2⟩ n2] s).stocks = l2 ∧
    (run [Event.connect,
          Event.deliverE s.nextId ⟨200, some l1, m1⟩ n1,
          Event.deliverE s.nextId ⟨200, some l2, m2⟩ n2,
          Event.deliverE s.nextId ⟨200, some l3, m3⟩ n3] s).stocks = l3 ∧
    (run [Event.connect,
          Event.deliverE s.nextId ⟨200, some l1, m1⟩ n1,
          Event.deliverE s.nextId ⟨200, some l2, m2⟩ n2,
          Event.deliverE s.nextId ⟨200, some l3, m3⟩ n3] s).messageCount
      = 3 := by
  refine ⟨?_, ?_, ?_, ?_, ?_⟩ <;>
    simp [run, step, connectToStream, deliver, applyResponse, bumpCount,
      List.find?_cons, hready, hnil]

/-- Witness for C5 from the initial state, with three one-element
batches. -/
theorem claim_C5_witness :
    (run [Event.connect] s0).stocks = [] ∧
    (run [Event.connect,
          Event.deliverE s0.nextId ⟨200, some [stockA], "a"⟩ 1] s0).stocks
      = [stockA] ∧
    (run [Event.connect,
          Event.deliverE s0.nextId ⟨200, some [stockA], "a"⟩ 1,
          Event.deliverE s0.nextId ⟨200, some [stockB], "b"⟩ 2] s0).stocks
      = [stockB] ∧
    (run [Event.connect,
          Event.deliverE s0.nextId ⟨200, some [stockA], "a"⟩ 1,
          Event.deliverE s0.nextId ⟨200, some [stockB], "b"⟩ 2,
          Event.deliverE s0.nextId ⟨200, some [], "c"⟩ 3] s0).stocks
      = [] ∧
    (run [Event.connect,
          Event.deliverE s0.nextId ⟨200, some [stockA], "a"⟩ 1,
          Event.deliverE s0.nextId ⟨200, some [stockB], "b"⟩ 2,
          Event.deliverE s0.nextId ⟨200, some [], "c"⟩ 3] s0).messageCount
      = 3 :=
  claim_C5 s0 [stockA] [stockB] [] "a" "b" "c" 1 2 3 rfl rfl

/-- Claim C7: three parameter changes within the debounce window while
a session is active cancel the active session at the first change
(before any reopen), open no session until the timer fires, and the
single timer expiry opens exactly one new session, carrying the
last-set parameters, with the abort controller repointed at it. -/
theorem claim_C7 (s : ClientState) (tt : Session)
    (f1 b1 f2 b2 f3 b3 : String)
    (hready : s.clientReady = true)
    (hsess : s.sessions = [tt])
    (href : s.abortRef = some tt.id)
    (hconn : s.isConnected = true) :
    (setParameters f1 b1 s).sessions = [{ tt with aborted := true }] ∧
    (setParameters f2 b2 (setParameters f1 b1 s)).sessions =
      [{ tt with aborted := true }] ∧
    (setParameters f3 b3 (setParameters f2 b2
      (setParameters f1 b1 s))).sessions =
      [{ tt with aborted := true }] ∧
    (tick (setParameters f3 b3 (setParameters f2 b2
      (setParameters f1 b1 s)))).sessions =
      [{ tt with aborted := true },
       { id := s.nextId, params := { filter := f3, sort := b3 },
         status := SessionStatus.pending, aborted := false, count := 0 }] ∧
    (tick (setParameters f3 b3 (setParameters f2 b2
      (setParameters f1 b1 s)))).filter = f3 ∧
    (tick (setParameters f3 b3 (setParameters f2 b2
      (setParameters f1 b1 s)))).sortBy = b3 ∧
    (tick (setParameters f3 b3 (setParameters f2 b2
      (setParameters f1 b1 s)))).abortRef = some s.nextId := by
  refine ⟨?_, ?_, ?_, ?_, ?_, ?_, ?_⟩ <;>
    simp [setParameters, disconnect, abortSession, tick, connectToStream,
      hready, hsess, href, hconn]

/-- Witness for C7 in the state reached by `connect()` from the
initial state, with three concrete parameter changes. -/
theorem claim_C7_witness :
    (setParameters "idx30" "volume" (run [Event.connect] s0)).sessions =
      [{ id := 0, params := { filter := "all", sort := "percent_change" },
         status := SessionStatus.pending, aborted := true, count := 0 }] ∧
    (setParameters "lq45" "value" (setParameters "idx30" "volume"
      (run [Event.connect] s0))).sessions =
      [{ id := 0, params := { filter := "all", sort := "percent_change" },
         status := SessionStatus.pending, aborted := true, count := 0 }] ∧
    (setParameters "kompas100" "code" (setParameters "lq45" "value"
      (setParameters "idx30" "volume" (run [Event.connect] s0)))).sessions =
      [{ id := 0, params := { filter := "all", sort := "percent_change" },
         status := SessionStatus.pending, aborted := true, count := 0 }] ∧
    (tick (setParameters "kompas100" "code" (setParameters "lq45" "value"
      (setParameters "idx30" "volume" (run [Event.connect] s0))))).sessions =
      [{ id := 0, params := { filter := "all", sort := "percent_change" },
         status := SessionStatus.pending, aborted := true, count := 0 },
       { id := 1, params := { filter := "kompas100", sort := "code" },
         status := SessionStatus.pending, aborted := false, count := 0 }] ∧
    (tick (setParameters "kompas100" "code" (setParameters "lq45" "value"
      (setParameters "idx30" "volume"
        (run [Event.connect] s0))))).filter = "kompas100" ∧
    (tick (setParameters "kompas100" "code" (setParameters "lq45" "value"
      (setParameters "idx30" "volume"
        (run [Event.connect] s0))))).sortBy = "code" ∧
    (tick (setParameters "kompas100" "code" (setParameters "lq45" "value"
      (setParameters "idx30" "volume"
        (run [Event.connect] s0))))).abortRef = some 1 :=
  claim_C7 (run [Event.connect] s0)
    { id := 0, params := { filter := "all", sort := "percent_change" },
      status := SessionStatus.pending, aborted := false, count := 0 }
    "idx30" "volume" "lq45" "value" "kompas100" "code"
    rfl rfl rfl rfl

/-- Witness for C10: in the state reached by one `connect()` from the
initial state, `disconnect()` leaves every observable field unchanged,
and the instantiated only-session-end-closes implication is discharged
at the session-end event. -/
theorem claim_C10_witness :
    (disconnect (run [Event.connect] s0)).isConnected =
      (run [Event.connect] s0).isConnected ∧
    (disconnect (run [Event.connect] s0)).error =
      (run [Event.connect] s0).error ∧
    (disconnect (run [Event.connect] s0)).messageCount =
      (run [Event.connect] s0).messageCount ∧
    (disconnect (run [Event.connect] s0)).lastUpdate =
      (run [Event.connect] s0).lastUpdate ∧
    (disconnect (run [Event.connect] s0)).stocks =
      (run [Event.connect] s0).stocks ∧
    (∃ sid o, Event.endE 0 Outcome.completed = Event.endE sid o) := by
  have h := claim_C10 (run [Event.connect] s0) (Event.endE 0 Outcome.completed)
  exact ⟨h.1, h.2.1, h.2.2.1, h.2.2.2.1, h.2.2.2.2.1,
    h.2.2.2.2.2 (by decide) (by decide)⟩
